import Mathlib

/-
Verification development for the FrameCheck client (upload & analysis
session layer).

The embedding models, from the React sources:
  - the `ImageUploader` component of the main frontend (file, previewUrl,
    isUploading, analysisResults, error state plus its onDrop, handleUpload,
    upload-button and reset-button handlers), as an event-step machine;
  - the `PhotographerSimilarity` component (files, previewUrls, isUploading,
    similarityResults, error plus onDrop, handleUpload, resetUpload), likewise;
  - the `CropSuggestion` component's onDrop and response handling;
  - the result projectors (the JSX that dereferences the analysis, crop and
    similarity payloads), with `Option` fields standing for JSON fields that
    may be absent (`undefined`); an unguarded dereference of an absent field
    is a thrown TypeError, modelled as `Except.error`;
  - JavaScript numbers as IEEE-754 binary64 values, represented exactly as
    `m * 2^e` with integer arithmetic (decimal payload literals are parsed to
    the nearest double, multiplication rounds to nearest/ties-to-even,
    `Math.round` rounds to nearest/ties-toward-positive-infinity);
  - the endpoint address construction of all upload handlers, with the
    `VITE_API_URL` environment override as an `Option String` and the
    JavaScript `||` fallback made explicit (empty string is falsy).
-/

/- ---------- JavaScript numbers: IEEE-754 binary64 over the integers ---------- -/

/-- Structural-fuel floor-log2 helper (fuel ≥ n suffices). -/
def log2Fuel : Nat → Nat → Nat
  | 0, _ => 0
  | fuel + 1, n => if n ≤ 1 then 0 else log2Fuel fuel (n / 2) + 1

/-- Floor of log2 for a positive natural (0 for 0). -/
def ilog2 (n : Nat) : Nat := log2Fuel n n

/-- 2^k as an integer. -/
def pow2 (k : Nat) : Int := ((2 ^ k : Nat) : Int)

/-- Round the rational a/b (b > 0) to the nearest integer, ties to even. -/
def roundHalfEvenInt (a b : Int) : Int :=
  let q := a.ediv b
  let r := a - q * b
  if 2 * r < b then q
  else if b < 2 * r then q + 1
  else if q % 2 = 0 then q else q + 1

/-- A binary64 value, represented exactly as m * 2^e. -/
structure F64 where
  m : Int
  e : Int
deriving DecidableEq

/-- Floor of log2 of the positive fraction a/b. -/
def floorLog2Frac (a b : Nat) : Int :=
  let c : Int := (ilog2 a : Int) - (ilog2 b : Int)
  let lt : Bool :=
    if 0 ≤ c then (a : Int) < (b : Int) * pow2 c.toNat
    else (a : Int) * pow2 (-c).toNat < (b : Int)
  if lt then c - 1 else c

/-- Round the nonnegative fraction a/b to the nearest binary64
(53-bit significand, round to nearest, ties to even). -/
def flFrac (a b : Nat) : F64 :=
  if a = 0 ∨ b = 0 then ⟨0, 0⟩
  else
    let e := floorLog2Frac a b
    let shift := 52 - e
    if 0 ≤ shift then ⟨roundHalfEvenInt ((a : Int) * pow2 shift.toNat) (b : Int), e - 52⟩
    else ⟨roundHalfEvenInt (a : Int) ((b : Int) * pow2 (-shift).toNat), e - 52⟩

/-- A decimal number literal as it appears in a JSON payload: num / 10^exp. -/
structure Dec where
  num : Int
  exp : Nat
deriving DecidableEq

/-- JSON.parse of a decimal literal: the nearest binary64. -/
def parseDec (d : Dec) : F64 :=
  let f := flFrac d.num.natAbs (10 ^ d.exp)
  if d.num < 0 then ⟨-f.m, f.e⟩ else f

/-- Binary64 multiplication: exact product rounded back to 53 significant
bits, round to nearest, ties to even. -/
def fmul (x y : F64) : F64 :=
  let p := x.m * y.m
  let e := x.e + y.e
  if p = 0 then ⟨0, 0⟩
  else
    let bits := ilog2 p.natAbs + 1
    if bits ≤ 53 then ⟨p, e⟩
    else ⟨roundHalfEvenInt p (pow2 (bits - 53)), e + (bits - 53)⟩

/-- JavaScript Math.round: nearest integer, ties toward positive infinity. -/
def jsMathRoundF (x : F64) : Int :=
  if 0 ≤ x.e then x.m * pow2 x.e.toNat
  else (x.m + pow2 ((-x.e).toNat - 1)).ediv (pow2 (-x.e).toNat)

/-- The double literal 100. -/
def f64hundred : F64 := ⟨100, 0⟩

/-- Math.round(similarity_score * 100) on doubles, for a decimal score. -/
def percentOfScore (d : Dec) : Int := jsMathRoundF (fmul (parseDec d) f64hundred)

/- ---------- JavaScript helpers ---------- -/

/-- JavaScript `a || b` for a possibly-absent string a (undefined and the
empty string are falsy). -/
def jsOr (v : Option String) (d : String) : String :=
  match v with
  | some s => if s = "" then d else s
  | none => d

/- ---------- Endpoint configuration (src/unnamed/part_000 line 47 and 697,
src/frontend/src/App.jsx line 284, src/my-framecheck-app/src/ImageUploader.jsx
line 42); env models import.meta.env.VITE_API_URL ---------- -/

/-- Local development base address. -/
def localhostBase : String := "http://localhost:8000"

/-- Endpoint of the analysis tool upload: VITE_API_URL || localhost, plus path. -/
def analyzeImageUrl (env : Option String) : String :=
  jsOr env localhostBase ++ "/analyze-image/"

/-- Endpoint of the crop tool upload: VITE_API_URL || localhost, plus path. -/
def suggestCropUrl (env : Option String) : String :=
  jsOr env localhostBase ++ "/suggest-crop/"

/-- Endpoint of the similarity tool upload: hardcoded, ignores the override. -/
def findSimilarUrl (_env : Option String) : String :=
  "http://localhost:8000/find-similar-photographers/"

/-- Endpoint of the my-framecheck-app uploader: hardcoded, ignores the override. -/
def legacyAnalyzeUrl (_env : Option String) : String :=
  "http://localhost:8000/analyze-image/"

/- ---------- Session-level payloads and error derivation ---------- -/

/-- The fields of response.data that the session handlers branch on. -/
structure RespData where
  success : Bool
  message : String
deriving DecidableEq

/-- A transport-level failure: error.response?.data?.detail and error.message. -/
structure TransErr where
  detail : Option String
  message : String
deriving DecidableEq

/-- Outcome of the axios post: resolved response data or a thrown error. -/
inductive UploadResult
  | ok (data : RespData)
  | err (e : TransErr)
deriving DecidableEq

/-- Error string stored by ImageUploader when response.data.success is false. -/
def analysisAppError (m : String) : String := "Analysis failed: " ++ m

/-- Error string stored by ImageUploader in the catch branch. -/
def analysisTransportError (e : TransErr) : String :=
  "Upload failed: " ++ jsOr e.detail e.message

/-- Error string stored by PhotographerSimilarity when success is false. -/
def similarityAppError (m : String) : String := "Similarity analysis failed: " ++ m

/-- Error string stored by PhotographerSimilarity in the catch branch. -/
def similarityTransportError (e : TransErr) : String :=
  "Upload failed: " ++ jsOr e.detail e.message

/-- Error string stored by CropSuggestion when success is false. -/
def cropAppError (m : String) : String := "Crop suggestion failed: " ++ m

/-- Error string stored by CropSuggestion in the catch branch. -/
def cropTransportError (e : TransErr) : String :=
  "Crop suggestion failed: " ++ jsOr e.detail e.message

/- ---------- The abstract status of a session (the spec's state machine
tags, derived from the component's stored fields; the components keep no
explicit status variable) ---------- -/

/-- Status tags of the spec's upload-session state machine. -/
inductive Status
  | idle
  | uploading
  | succeeded
  | failed
deriving DecidableEq

/- ---------- The ImageUploader session machine (src/unnamed/part_000) ---------- -/

/-- The five useState fields of ImageUploader. -/
structure IUState where
  file : Option String
  previewUrl : Option Nat
  isUploading : Bool
  analysisResults : Option RespData
  error : Option String
deriving DecidableEq

/-- The machine world: component state plus the count of outstanding axios
calls, a fresh-object-URL counter, and exceptions thrown by handlers. -/
structure IUWorld where
  st : IUState
  pending : Nat
  nextUrl : Nat
  exceptions : List String
deriving DecidableEq

/-- Events of the ImageUploader session: a dropzone drop with the accepted
files, a click on the Analyze button, arrival of the response of an
outstanding request, and a click on the reset button. -/
inductive IUEvent
  | drop (accepted : List String)
  | clickUpload
  | response (r : UploadResult)
  | clickReset
deriving DecidableEq

/-- onDrop of ImageUploader: takes acceptedFiles[0]; if present, replaces the
file, creates a fresh preview URL and clears results and error; an empty
accepted list leaves everything unchanged. -/
def iuOnDrop (accepted : List String) (s : IUState) (nextUrl : Nat) : IUState × Nat :=
  match accepted.head? with
  | none => (s, nextUrl)
  | some f =>
      ({ s with file := some f, previewUrl := some nextUrl,
                analysisResults := none, error := none }, nextUrl + 1)

/-- The continuation of handleUpload once the axios promise settles:
success stores the payload and clears error; success=false stores the
application error without clearing analysisResults; the catch branch stores
the transport error without clearing analysisResults; finally clears
isUploading. -/
def iuHandleResponse (r : UploadResult) (s : IUState) : IUState :=
  let s1 :=
    match r with
    | .ok data =>
        if data.success then { s with analysisResults := some data, error := none }
        else { s with error := some (analysisAppError data.message) }
    | .err e => { s with error := some (analysisTransportError e) }
  { s1 with isUploading := false }

/-- One step of the ImageUploader session. The Analyze button exists only
when previewUrl is set and is disabled while isUploading; handleUpload
returns early when file is null, else sets isUploading and issues one
request. The reset button exists only when analysisResults is set; its
handler clears file, previewUrl and analysisResults, then throws
(setDeskewResults is not defined), so setError(null) is never reached. -/
def iuStep (w : IUWorld) : IUEvent → IUWorld
  | .drop accepted =>
      let p := iuOnDrop accepted w.st w.nextUrl
      { w with st := p.1, nextUrl := p.2 }
  | .clickUpload =>
      if w.st.previewUrl.isSome && !w.st.isUploading then
        match w.st.file with
        | none => w
        | some _ => { w with st := { w.st with isUploading := true }, pending := w.pending + 1 }
      else w
  | .response r =>
      if w.pending = 0 then w
      else { w with st := iuHandleResponse r w.st, pending := w.pending - 1 }
  | .clickReset =>
      if w.st.analysisResults.isSome then
        { w with st := { w.st with file := none, previewUrl := none, analysisResults := none },
                 exceptions := w.exceptions ++ ["ReferenceError: setDeskewResults is not defined"] }
      else w

/-- The fresh-mount world of ImageUploader. -/
def iuInit : IUWorld := ⟨⟨none, none, false, none, none⟩, 0, 0, []⟩

/-- Run an event trace from the fresh mount. -/
def iuRun (evs : List IUEvent) : IUWorld := evs.foldl iuStep iuInit

/-- Derived status of an ImageUploader state: uploading while the flag is
set, else failed when an error is recorded, else succeeded when a result is
stored, else idle. -/
def iuStatus (s : IUState) : Status :=
  if s.isUploading then .uploading
  else if s.error.isSome then .failed
  else if s.analysisResults.isSome then .succeeded
  else .idle

/- ---------- The PhotographerSimilarity session machine
(src/frontend/src/App.jsx) ---------- -/

/-- The five useState fields of PhotographerSimilarity. -/
structure PSState where
  files : List String
  previewUrls : List Nat
  isUploading : Bool
  similarityResults : Option RespData
  error : Option String
deriving DecidableEq

/-- The machine world for PhotographerSimilarity. -/
structure PSWorld where
  st : PSState
  pending : Nat
  nextUrl : Nat
deriving DecidableEq

/-- Events of the PhotographerSimilarity session. -/
inductive PSEvent
  | drop (accepted : List String)
  | clickUpload
  | response (r : UploadResult)
  | clickReset
deriving DecidableEq

/-- onDrop of PhotographerSimilarity: unconditionally replaces the selection
with acceptedFiles.slice(0, 4), creates one preview URL per kept file, and
clears results and error (an empty accepted list clears the selection). -/
def psOnDrop (accepted : List String) (s : PSState) (nextUrl : Nat) : PSState × Nat :=
  let newFiles := accepted.take 4
  ({ s with files := newFiles,
            previewUrls := (List.range newFiles.length).map (fun i => nextUrl + i),
            similarityResults := none, error := none }, nextUrl + newFiles.length)

/-- The continuation of the similarity handleUpload once the promise
settles (same shape as the analysis one). -/
def psHandleResponse (r : UploadResult) (s : PSState) : PSState :=
  let s1 :=
    match r with
    | .ok data =>
        if data.success then { s with similarityResults := some data, error := none }
        else { s with error := some (similarityAppError data.message) }
    | .err e => { s with error := some (similarityTransportError e) }
  { s1 with isUploading := false }

/-- One step of the PhotographerSimilarity session. The upload button exists
only when previewUrls is non-empty and is disabled while isUploading;
handleUpload returns early when files is empty. The reset button exists only
when similarityResults is set; resetUpload clears files, previewUrls,
similarityResults and error (it does not touch isUploading). -/
def psStep (w : PSWorld) : PSEvent → PSWorld
  | .drop accepted =>
      let p := psOnDrop accepted w.st w.nextUrl
      { w with st := p.1, nextUrl := p.2 }
  | .clickUpload =>
      if !w.st.previewUrls.isEmpty && !w.st.isUploading then
        if w.st.files.isEmpty then w
        else { w with st := { w.st with isUploading := true }, pending := w.pending + 1 }
      else w
  | .response r =>
      if w.pending = 0 then w
      else { w with st := psHandleResponse r w.st, pending := w.pending - 1 }
  | .clickReset =>
      if w.st.similarityResults.isSome then
        { w with st := { w.st with files := [], previewUrls := [],
                                   similarityResults := none, error := none } }
      else w

/-- The fresh-mount world of PhotographerSimilarity. -/
def psInit : PSWorld := ⟨⟨[], [], false, none, none⟩, 0, 0⟩

/-- Run an event trace from the fresh mount. -/
def psRun (evs : List PSEvent) : PSWorld := evs.foldl psStep psInit

/-- Derived status of a PhotographerSimilarity state. -/
def psStatus (s : PSState) : Status :=
  if s.isUploading then .uploading
  else if s.error.isSome then .failed
  else if s.similarityResults.isSome then .succeeded
  else .idle

/- ---------- The CropSuggestion intake and response handling
(src/unnamed/part_000, CropSuggestion component) ---------- -/

/-- The five useState fields of CropSuggestion. -/
structure CropState where
  file : Option String
  previewUrl : Option Nat
  isProcessing : Bool
  cropResults : Option RespData
  error : Option String
deriving DecidableEq

/-- onDrop of CropSuggestion: same guarded single-file shape as the
analysis tool. -/
def cropOnDrop (accepted : List String) (s : CropState) (nextUrl : Nat) : CropState × Nat :=
  match accepted.head? with
  | none => (s, nextUrl)
  | some f =>
      ({ s with file := some f, previewUrl := some nextUrl,
                cropResults := none, error := none }, nextUrl + 1)

/-- The continuation of handleCropSuggestion once the promise settles. -/
def cropHandleResponse (r : UploadResult) (s : CropState) : CropState :=
  let s1 :=
    match r with
    | .ok data =>
        if data.success then { s with cropResults := some data, error := none }
        else { s with error := some (cropAppError data.message) }
    | .err e => { s with error := some (cropTransportError e) }
  { s1 with isProcessing := false }

/- ---------- Result projectors. Option fields model JSON fields that may be
absent (undefined). A JSX dereference of an absent object throws a
TypeError, modelled as Except.error; a guarded absence renders nothing.
Rendered output is kept as lists of display strings. ---------- -/

/-- Success ok-test on a render outcome. -/
def renderOk {α : Type} : Except String α → Bool
  | .ok _ => true
  | .error _ => false

/-- The four optional text fields of ai_feedback.feedback. -/
structure FeedbackFields where
  overall_assessment : Option String
  what_works_well : Option String
  suggestions : Option String
  advanced_technique : Option String
deriving DecidableEq

/-- The ai_feedback object of an analysis payload. -/
structure AiFeedback where
  success : Bool
  feedback : Option FeedbackFields
  tokens_used : Option Nat
deriving DecidableEq

/-- The images object of an analysis payload. -/
structure AnalysisImages where
  analysis_overlay : Option String
  rule_of_thirds : Option String
  leading_lines : Option String
  original : Option String
deriving DecidableEq

/-- The rule_of_thirds sub-record of analysis_summary. -/
structure RotSummary where
  follows_rule : Bool
  subject_detected : Bool
  distance_to_intersection : Option Dec
deriving DecidableEq

/-- The leading_lines sub-record of analysis_summary. -/
structure LinesSummary where
  total_lines : Nat
  diagonal_lines : Nat
  corner_lines : Nat
  has_strong_leading_lines : Bool
deriving DecidableEq

/-- The analysis_summary object of an analysis payload. -/
structure AnalysisSummary where
  rule_of_thirds : Option RotSummary
  leading_lines : Option LinesSummary
deriving DecidableEq

/-- An analysis result payload as dereferenced by the ImageUploader JSX. -/
structure AnalysisPayload where
  ai_feedback : Option AiFeedback
  images : Option AnalysisImages
  analysis_summary : Option AnalysisSummary
deriving DecidableEq

/-- The guarded feedback sub-fields of the AI feedback success branch. -/
def feedbackItems (fb : FeedbackFields) : List String :=
  (match fb.overall_assessment with
   | some t => ["Overall Assessment: " ++ t]
   | none => []) ++
  (match fb.what_works_well with
   | some t => ["What Works Well: " ++ t]
   | none => []) ++
  (match fb.suggestions with
   | some t => ["Suggestions for Improvement: " ++ t]
   | none => []) ++
  (match fb.advanced_technique with
   | some t => ["Advanced Technique: " ++ t]
   | none => [])

/-- The AI-feedback section: every access is guarded (&& chains in the
success branch, optional chaining plus || fallback in the failure branch). -/
def aiFeedbackSection (af : AiFeedback) : List String :=
  if af.success then
    (match af.feedback with
     | some fb => feedbackItems fb
     | none => []) ++
    (match af.tokens_used with
     | some n => ["Generated using " ++ toString n ++ " AI tokens"]
     | none => [])
  else
    ["Fallback Analysis: " ++
      jsOr (af.feedback.bind (fun fb => fb.overall_assessment))
        "Analysis completed with basic feedback."] ++
    (match af.feedback.bind (fun fb => fb.suggestions) with
     | some t => ["Suggestion: " ++ t]
     | none => [])

/-- The visual-analysis images section: each of the four images guarded. -/
def imagesSection (im : AnalysisImages) : List String :=
  (match im.analysis_overlay with
   | some u => ["Complete Analysis: " ++ u]
   | none => []) ++
  (match im.rule_of_thirds with
   | some u => ["Rule of Thirds: " ++ u]
   | none => []) ++
  (match im.leading_lines with
   | some u => ["Leading Lines: " ++ u]
   | none => []) ++
  (match im.original with
   | some u => ["Original: " ++ u]
   | none => [])

/-- The technical-summary section: the two sub-records guarded, their scalar
fields read directly, the optional distance guarded and Math.rounded. -/
def summarySection (su : AnalysisSummary) : List String :=
  (match su.rule_of_thirds with
   | some rot =>
       ["Follows Rule: " ++ (if rot.follows_rule then "Yes" else "No"),
        "Subject Detected: " ++ (if rot.subject_detected then "Yes" else "No")] ++
       (match rot.distance_to_intersection with
        | some d => ["Distance to Grid: " ++ toString (jsMathRoundF (parseDec d)) ++ "px"]
        | none => [])
   | none => []) ++
  (match su.leading_lines with
   | some ll =>
       ["Total Lines: " ++ toString ll.total_lines,
        "Diagonal Lines: " ++ toString ll.diagonal_lines,
        "Corner Lines: " ++ toString ll.corner_lines,
        "Strong Lines: " ++ (if ll.has_strong_leading_lines then "Yes" else "No")]
   | none => []) 

/-- The analysis projector (ImageUploader results JSX): all three top-level
sections and every nested field are guarded, so no payload shape can make a
dereference fail. -/
def renderAnalysis (a : AnalysisPayload) : Except String (List String) :=
  .ok
    (["Analysis Complete!"] ++
     (match a.ai_feedback with
      | some af => aiFeedbackSection af
      | none => []) ++
     (match a.images with
      | some im => imagesSection im
      | none => []) ++
     (match a.analysis_summary with
      | some su => summarySection su
      | none => []))

/-- The processing_info object of a crop payload. -/
structure ProcessingInfo where
  subject_detected : Bool
deriving DecidableEq

/-- The images object of a crop payload. -/
structure CropImages where
  original : String
  cropped : String
deriving DecidableEq

/-- A crop result payload as dereferenced by the CropSuggestion JSX. -/
structure CropPayload where
  processing_info : Option ProcessingInfo
  subject_center : Option (Int × Int)
  crop_ratio : Option Dec
  images : Option CropImages
deriving DecidableEq

/-- toFixed(2) display of a decimal ratio (round half up at two decimals). -/
def toFixed2 (d : Dec) : String :=
  let den : Int := ((10 ^ d.exp : Nat) : Int)
  let n : Int := (2 * d.num * 100 + den).ediv (2 * den)
  let frac := (n.emod 100).toNat
  toString (n.ediv 100) ++ "." ++ (if frac < 10 then "0" else "") ++ toString frac

/-- The crop projector (CropSuggestion results JSX): processing_info,
crop_ratio and images are dereferenced without a guard, and subject_center
is indexed whenever subject_detected is true; each such access of an absent
field throws. -/
def renderCrop (c : CropPayload) : Except String (List String) :=
  match c.processing_info with
  | none => .error "TypeError: cannot read subject_detected of undefined"
  | some pi =>
      match
        (if pi.subject_detected then
           match c.subject_center with
           | none => Except.error "TypeError: cannot read 0 of undefined"
           | some ctr =>
               Except.ok ("Subject detected at (" ++ toString ctr.1 ++ ", " ++
                 toString ctr.2 ++ ")")
         else Except.ok "No clear subject detected") with
      | .error msg => .error msg
      | .ok subjectLine =>
          match c.crop_ratio with
          | none => .error "TypeError: cannot read toFixed of undefined"
          | some r =>
              match c.images with
              | none => .error "TypeError: cannot read original of undefined"
              | some im =>
                  .ok [subjectLine, toFixed2 r ++ ":1 (Width:Height)",
                       "Original: " ++ im.original, "Suggested Crop: " ++ im.cropped]

/-- Which crop-payload fields must be present for the crop projector
to finish (stated from the amended claim, to compare with renderCrop). -/
def cropRequired (c : CropPayload) : Bool :=
  match c.processing_info with
  | none => false
  | some pi =>
      (!pi.subject_detected || c.subject_center.isSome) &&
      c.crop_ratio.isSome && c.images.isSome

/-- One photographer entry of a similarity payload. -/
structure Photographer where
  name : String
  similarity_score : Dec
  description : String
  sample_count : Nat
deriving DecidableEq

/-- One processed_files entry of a similarity payload. -/
structure ProcessedFile where
  filename : String
  size : Option (Nat × Nat)
deriving DecidableEq

/-- A similarity result payload as dereferenced by the JSX. -/
structure SimilarityPayload where
  total_images_processed : Nat
  similar_photographers : Option (List Photographer)
  processed_files : Option (List ProcessedFile)
deriving DecidableEq

/-- The rendered row of one photographer: medal decoration, name, and the
whole-percentage match score. -/
structure PhRow where
  medal : String
  name : String
  percent : Int
  description : String
  sample_count : Nat
deriving DecidableEq

/-- The decoration of the entry at index i: gold for 0, silver for 1,
bronze for every later index. -/
def medalFor (i : Nat) : String :=
  if i = 0 then "🥇" else if i = 1 then "🥈" else "🥉"

/-- The row rendered for the photographer at index i. -/
def renderRow (i : Nat) (ph : Photographer) : PhRow :=
  ⟨medalFor i, ph.name, percentOfScore ph.similarity_score,
   ph.description, ph.sample_count⟩

/-- similar_photographers.map((photographer, index) => ...), from index i. -/
def renderRowsFrom (i : Nat) : List Photographer → List PhRow
  | [] => []
  | ph :: rest => renderRow i ph :: renderRowsFrom (i + 1) rest

/-- The photographer rows in server order. -/
def renderRows (phs : List Photographer) : List PhRow := renderRowsFrom 0 phs

/-- Sequencing of a fallible render over a list (JSX .map aborts the whole
render at the first thrown access). -/
def mapExcept {α β : Type} (f : α → Except String β) : List α → Except String (List β)
  | [] => .ok []
  | x :: xs =>
      match f x with
      | .error msg => .error msg
      | .ok y =>
          match mapExcept f xs with
          | .error msg => .error msg
          | .ok ys => .ok (y :: ys)

/-- One processing-summary card: file.filename is safe, file.size[0] throws
when size is absent. -/
def renderProcessedFile (f : ProcessedFile) : Except String String :=
  match f.size with
  | none => .error "TypeError: cannot read 0 of undefined"
  | some sz => .ok (f.filename ++ ": " ++ toString sz.1 ++ " x " ++ toString sz.2 ++ " pixels")

/-- The similarity view: banner, photographer rows, processed-file lines. -/
structure SimilarityView where
  banner : String
  rows : List PhRow
  fileLines : List String
deriving DecidableEq

/-- The similarity projector (PhotographerSimilarity results JSX):
similar_photographers is mapped without a guard; processed_files is guarded
by &&, but each present entry has its size indexed without a guard. -/
def renderSimilarity (p : SimilarityPayload) : Except String SimilarityView :=
  match p.similar_photographers with
  | none => .error "TypeError: cannot read map of undefined"
  | some phs =>
      match p.processed_files with
      | none =>
          .ok ⟨"Found similar photographers based on " ++
                toString p.total_images_processed ++ " images",
               renderRows phs, []⟩
      | some fs =>
          match mapExcept renderProcessedFile fs with
          | .error msg => .error msg
          | .ok lines =>
              .ok ⟨"Found similar photographers based on " ++
                    toString p.total_images_processed ++ " images",
                   renderRows phs, lines⟩

/-- Which similarity-payload fields must be present for the similarity
projector to finish (stated from the amended claim). -/
def simRequired (p : SimilarityPayload) : Bool :=
  p.similar_photographers.isSome &&
  (match p.processed_files with
   | none => true
   | some fs => fs.all (fun f => f.size.isSome))

/- ---------- Helper lemmas ---------- -/

/-- The response continuation always ends with isUploading cleared (the
finally block of handleUpload). -/
theorem iuHandleResponse_isUploading (r : UploadResult) (s : IUState) :
    (iuHandleResponse r s).isUploading = false := by
  cases r with
  | ok data => by_cases h : data.success <;> simp [iuHandleResponse, h]
  | err e => simp [iuHandleResponse]

/-- One step preserves the single-flight invariant: the number of outstanding
requests is 1 exactly while isUploading is set, else 0. -/
theorem iuStep_pending (w : IUWorld) (ev : IUEvent)
    (h : w.pending = if w.st.isUploading then 1 else 0) :
    (iuStep w ev).pending = if (iuStep w ev).st.isUploading then 1 else 0 := by
  cases ev with
  | drop accepted =>
      cases accepted with
      | nil => simpa [iuStep, iuOnDrop] using h
      | cons f rest => simpa [iuStep, iuOnDrop] using h
  | clickUpload =>
      by_cases hg : (w.st.previewUrl.isSome && !w.st.isUploading) = true
      · have hU : w.st.isUploading = false := by
          cases hU : w.st.isUploading
          · rfl
          · rw [hU] at hg; simp at hg
        cases hf : w.st.file with
        | none => simpa [iuStep, hg, hf] using h
        | some f =>
            rw [hU] at h
            simp [iuStep, hg, hf, h]
      · have hg2 : (w.st.previewUrl.isSome && !w.st.isUploading) = false := by
          cases hgg : (w.st.previewUrl.isSome && !w.st.isUploading)
          · rfl
          · exact absurd hgg hg
        simpa [iuStep, hg2] using h
  | response r =>
      by_cases hp : w.pending = 0
      · simpa [iuStep, hp] using h
      · have hU : w.st.isUploading = true := by
          cases hU : w.st.isUploading
          · rw [hU] at h; simp at h; exact absurd h hp
          · rfl
        rw [hU] at h
        simp [iuStep, hp, iuHandleResponse_isUploading, h]
  | clickReset =>
      by_cases hr : w.st.analysisResults.isSome = true
      · simpa [iuStep, hr] using h
      · have hr2 : w.st.analysisResults.isSome = false := by
          cases hrr : w.st.analysisResults.isSome
          · rfl
          · exact absurd hrr hr
        simpa [iuStep, hr2] using h

/-- The single-flight invariant holds after any trace from the fresh mount. -/
theorem iuRun_pending (evs : List IUEvent) :
    (iuRun evs).pending = if (iuRun evs).st.isUploading then 1 else 0 := by
  have aux : ∀ (l : List IUEvent) (w : IUWorld),
      w.pending = (if w.st.isUploading then 1 else 0) →
      (List.foldl iuStep w l).pending =
        if (List.foldl iuStep w l).st.isUploading then 1 else 0 := by
    intro l
    induction l with
    | nil => intro w h; simpa using h
    | cons ev rest ih =>
        intro w h
        simpa [List.foldl] using ih (iuStep w ev) (iuStep_pending w ev h)
  exact aux evs iuInit rfl

/-- Sequencing the processed-file renders succeeds exactly when every entry
carries a size. -/
theorem mapExcept_processed_ok (fs : List ProcessedFile) :
    renderOk (mapExcept renderProcessedFile fs) = fs.all (fun f => f.size.isSome) := by
  induction fs with
  | nil => rfl
  | cons f rest ih =>
      cases hf : f.size with
      | none => simp [mapExcept, renderProcessedFile, hf, renderOk]
      | some sz =>
          cases hrec : mapExcept renderProcessedFile rest with
          | error msg =>
              rw [hrec] at ih
              simp [mapExcept, renderProcessedFile, hf, hrec, renderOk, ← ih]
          | ok ys =>
              rw [hrec] at ih
              simp [mapExcept, renderProcessedFile, hf, hrec, renderOk, ← ih]

/-- Row names come out in payload order. -/
theorem renderRowsFrom_names (phs : List Photographer) :
    ∀ i, (renderRowsFrom i phs).map PhRow.name = phs.map Photographer.name := by
  induction phs with
  | nil => intro i; rfl
  | cons ph rest ih => intro i; simp [renderRowsFrom, renderRow, ih]

/-- Row percentages are Math.round(score * 100) on doubles, in payload order. -/
theorem renderRowsFrom_percents (phs : List Photographer) :
    ∀ i, (renderRowsFrom i phs).map PhRow.percent =
      phs.map (fun ph => percentOfScore ph.similarity_score) := by
  induction phs with
  | nil => intro i; rfl
  | cons ph rest ih => intro i; simp [renderRowsFrom, renderRow, ih]

/-- Row decorations are medalFor applied to the consecutive indices. -/
theorem renderRowsFrom_medals (phs : List Photographer) :
    ∀ i, (renderRowsFrom i phs).map PhRow.medal =
      (List.range' i phs.length).map medalFor := by
  induction phs with
  | nil => intro i; rfl
  | cons ph rest ih => intro i; simp [renderRowsFrom, renderRow, List.range', ih]

/- ---------- Claim theorems ---------- -/

/-- C5 counterexample: a crop payload whose processing_info sub-object is
absent, with every other section present, does not render its present
sections; the projector fails on the unguarded dereference
cropResults.processing_info.subject_detected. -/
theorem c5_crop_missing_subobject_counterexample :
    renderCrop ⟨none, some (320, 240), some ⟨15, 1⟩, some ⟨"orig.jpg", "crop.jpg"⟩⟩ =
      Except.error "TypeError: cannot read subject_detected of undefined" ∧
    renderOk (renderCrop ⟨none, some (320, 240), some ⟨15, 1⟩,
      some ⟨"orig.jpg", "crop.jpg"⟩⟩) = false :=
  ⟨rfl, rfl⟩

/-- C5 (amended): the analysis projector tolerates every absent sub-object
(each absence degrades to omission of that section only); the crop projector
finishes exactly when processing_info, crop_ratio and images are present and
subject_center is present whenever a subject is detected; the similarity
projector finishes exactly when similar_photographers is present and every
present processed file carries a size. -/
theorem c5_amended_projector_tolerance :
    (∀ a : AnalysisPayload, renderOk (renderAnalysis a) = true) ∧
    (∀ c : CropPayload, renderOk (renderCrop c) = cropRequired c) ∧
    (∀ p : SimilarityPayload, renderOk (renderSimilarity p) = simRequired p) := by
  refine ⟨fun a => rfl, fun c => ?_, fun p => ?_⟩
  · obtain ⟨pinfo, sc, cr, im⟩ := c
    cases pinfo with
    | none => rfl
    | some piv =>
        obtain ⟨sd⟩ := piv
        cases sd <;> cases sc <;> cases cr <;> cases im <;> rfl
  · obtain ⟨t, sp, pf⟩ := p
    cases sp with
    | none => rfl
    | some phs =>
        cases pf with
        | none => rfl
        | some fs =>
            have h := mapExcept_processed_ok fs
            cases hrec : mapExcept renderProcessedFile fs with
            | error msg =>
                rw [hrec] at h
                simp [renderSimilarity, simRequired, hrec, renderOk, ← h]
            | ok lines =>
                rw [hrec] at h
                simp [renderSimilarity, simRequired, hrec, renderOk, ← h]

/-- C6 counterexample: with four photographers in the payload, the fourth
entry also receives the bronze third-place decoration, so the 1st/2nd/3rd
ordinals are not given to exactly the top three entries. -/
theorem c6_fourth_entry_decorated_counterexample :
    (renderRows [⟨"A", ⟨8, 1⟩, "d1", 10⟩, ⟨"B", ⟨6, 1⟩, "d2", 11⟩,
                 ⟨"C", ⟨4, 1⟩, "d3", 12⟩, ⟨"D", ⟨2, 1⟩, "d4", 13⟩]).map PhRow.medal =
      ["🥇", "🥈", "🥉", "🥉"] := by decide

/-- C6 (amended): the similarity projector preserves the server order of
photographers without re-sorting, renders each score as
Math.round(score * 100) over binary64 doubles, decorates index 0 with the
gold, index 1 with the silver, and index 2 and every later index with the
bronze medal; in particular scores 0.873, 0.512, 0.305 render as
87, 51, 31 percent in that order with the gold, silver and bronze medals. -/
theorem c6_amended_similarity_rendering :
    (∀ phs : List Photographer,
        (renderRows phs).map PhRow.name = phs.map Photographer.name) ∧
    (∀ phs : List Photographer,
        (renderRows phs).map PhRow.percent =
          phs.map (fun ph => percentOfScore ph.similarity_score)) ∧
    (∀ phs : List Photographer,
        (renderRows phs).map PhRow.medal = (List.range phs.length).map medalFor) ∧
    medalFor 0 = "🥇" ∧ medalFor 1 = "🥈" ∧ (∀ i : Nat, medalFor (i + 2) = "🥉") ∧
    (renderRows [⟨"A", ⟨873, 3⟩, "d1", 10⟩, ⟨"B", ⟨512, 3⟩, "d2", 11⟩,
                 ⟨"C", ⟨305, 3⟩, "d3", 12⟩]).map PhRow.percent = [87, 51, 31] ∧
    (renderRows [⟨"A", ⟨873, 3⟩, "d1", 10⟩, ⟨"B", ⟨512, 3⟩, "d2", 11⟩,
                 ⟨"C", ⟨305, 3⟩, "d3", 12⟩]).map PhRow.medal = ["🥇", "🥈", "🥉"] := by
  refine ⟨fun phs => renderRowsFrom_names phs 0,
          fun phs => renderRowsFrom_percents phs 0,
          fun phs => ?_, rfl, rfl, fun i => ?_, by decide, by decide⟩
  · rw [renderRows, renderRowsFrom_medals phs 0, List.range_eq_range']
  · have h0 : i + 2 ≠ 0 := by omega
    have h1 : i + 2 ≠ 1 := by omega
    simp [medalFor, h0, h1]

/-- C7: the similarity intake keeps exactly the first min(n, 4) dropped
files in drop order, raises no error on excess, and in particular a six-file
drop keeps exactly the first four. -/
theorem c7_intake_truncation :
    (∀ (accepted : List String) (s : PSState) (n : Nat),
        (psOnDrop accepted s n).1.files = accepted.take 4) ∧
    (∀ (accepted : List String) (s : PSState) (n : Nat),
        ((psOnDrop accepted s n).1.files).length = min accepted.length 4) ∧
    (∀ (accepted : List String) (s : PSState) (n : Nat),
        (psOnDrop accepted s n).1.error = none) ∧
    (psOnDrop ["f1", "f2", "f3", "f4", "f5", "f6"] psInit.st 0).1.files =
      ["f1", "f2", "f3", "f4"] := by
  refine ⟨fun a s n => rfl, fun a s n => ?_, fun a s n => rfl, by decide⟩
  simp [psOnDrop, List.length_take, Nat.min_comm]

/-- C9 counterexample: with a deployment override set, the similarity
upload still targets the hardcoded local address rather than the overridden
base, while the analysis upload honours the override. -/
theorem c9_similarity_endpoint_ignores_override :
    findSimilarUrl (some "https://api.example.com") =
      "http://localhost:8000/find-similar-photographers/" ∧
    findSimilarUrl (some "https://api.example.com") ≠
      jsOr (some "https://api.example.com") localhostBase ++
        "/find-similar-photographers/" ∧
    analyzeImageUrl (some "https://api.example.com") =
      "https://api.example.com/analyze-image/" := by
  refine ⟨rfl, by decide, by decide⟩

/-- C9 (amended): the analysis and crop endpoints are built from the single
overridable base address with the local development default, while the
similarity endpoint and the my-framecheck-app uploader endpoint are
hardcoded to the local address and ignore the override. -/
theorem c9_amended_endpoint_config :
    (∀ env, analyzeImageUrl env = jsOr env localhostBase ++ "/analyze-image/") ∧
    (∀ env, suggestCropUrl env = jsOr env localhostBase ++ "/suggest-crop/") ∧
    analyzeImageUrl none = "http://localhost:8000/analyze-image/" ∧
    suggestCropUrl none = "http://localhost:8000/suggest-crop/" ∧
    (∀ env, findSimilarUrl env = "http://localhost:8000/find-similar-photographers/") ∧
    (∀ env, legacyAnalyzeUrl env = "http://localhost:8000/analyze-image/") :=
  ⟨fun _ => rfl, fun _ => rfl, by decide, by decide, fun _ => rfl, fun _ => rfl⟩

/-- C10: an intake event whose accepted list is empty leaves every field of
the single-image sessions (analysis and crop) unchanged, while in the
similarity session it replaces the selection and previews with the empty
sequence and clears result and error. -/
theorem c10_empty_intake_asymmetry :
    (∀ (s : IUState) (n : Nat), iuOnDrop [] s n = (s, n)) ∧
    (∀ (s : CropState) (n : Nat), cropOnDrop [] s n = (s, n)) ∧
    (∀ (s : PSState) (n : Nat),
        psOnDrop [] s n =
          ({ s with files := [], previewUrls := [],
                    similarityResults := none, error := none }, n)) :=
  ⟨fun _ _ => rfl, fun _ _ => rfl, fun _ _ => rfl⟩

/-- Two strings with distinct first characters are distinct. -/
theorem analysisAppError_ne_transport (m : String) (e : TransErr) :
    analysisAppError m ≠ analysisTransportError e := by
  unfold analysisAppError analysisTransportError
  generalize jsOr e.detail e.message = x
  obtain ⟨md⟩ := m
  obtain ⟨xd⟩ := x
  intro h
  have h2 : (some 'A' : Option Char) = some 'U' :=
    congrArg (fun s : String => s.data.head?) h
  exact absurd h2 (by decide)

/-- The similarity application-failure prefix differs from the transport one. -/
theorem similarityAppError_ne_transport (m : String) (e : TransErr) :
    similarityAppError m ≠ similarityTransportError e := by
  unfold similarityAppError similarityTransportError
  generalize jsOr e.detail e.message = x
  obtain ⟨md⟩ := m
  obtain ⟨xd⟩ := x
  intro h
  have h2 : (some 'S' : Option Char) = some 'U' :=
    congrArg (fun s : String => s.data.head?) h
  exact absurd h2 (by decide)

/-- C1 counterexample: a success response that arrives after the similarity
session has been reset mid-flight is not discarded: it stores the late
payload as result and moves the status to succeeded, resurrecting state in a
freshly reset session (the files stay cleared, yet a result appears). -/
theorem c1_stale_response_counterexample :
    (psRun [PSEvent.drop ["a.jpg"], PSEvent.clickUpload,
        PSEvent.response (UploadResult.ok ⟨true, "first"⟩), PSEvent.clickUpload,
        PSEvent.clickReset,
        PSEvent.response (UploadResult.ok ⟨true, "late"⟩)]).st.similarityResults =
      some ⟨true, "late"⟩ ∧
    (psRun [PSEvent.drop ["a.jpg"], PSEvent.clickUpload,
        PSEvent.response (UploadResult.ok ⟨true, "first"⟩), PSEvent.clickUpload,
        PSEvent.clickReset,
        PSEvent.response (UploadResult.ok ⟨true, "late"⟩)]).st.files = [] ∧
    psStatus (psRun [PSEvent.drop ["a.jpg"], PSEvent.clickUpload,
        PSEvent.response (UploadResult.ok ⟨true, "first"⟩), PSEvent.clickUpload,
        PSEvent.clickReset,
        PSEvent.response (UploadResult.ok ⟨true, "late"⟩)]).st = Status.succeeded := by
  decide

/-- C1 (amended): the session has no staleness check: a success response
whose request is still outstanding when it arrives after a reset is applied
normally, storing the payload as result, clearing error and moving the
status to succeeded rather than being discarded. -/
theorem c1_amended_stale_response_applied (t : List PSEvent) (data : RespData)
    (hs : data.success = true)
    (hp : (psRun (t ++ [PSEvent.clickReset])).pending ≠ 0) :
    (psStep (psRun (t ++ [PSEvent.clickReset]))
        (PSEvent.response (UploadResult.ok data))).st.similarityResults = some data ∧
    (psStep (psRun (t ++ [PSEvent.clickReset]))
        (PSEvent.response (UploadResult.ok data))).st.error = none ∧
    psStatus (psStep (psRun (t ++ [PSEvent.clickReset]))
        (PSEvent.response (UploadResult.ok data))).st = Status.succeeded := by
  simp [psStep, hp, psHandleResponse, hs, psStatus]

/-- Witness for C1: the amended theorem applied to a concrete mid-flight
reset trace and a concrete late payload. -/
theorem c1_amended_stale_response_applied_witness :
    (psStep (psRun ([PSEvent.drop ["b.jpg"], PSEvent.clickUpload,
        PSEvent.response (UploadResult.ok ⟨true, "one"⟩), PSEvent.clickUpload] ++
        [PSEvent.clickReset]))
        (PSEvent.response (UploadResult.ok ⟨true, "two"⟩))).st.similarityResults =
      some ⟨true, "two"⟩ ∧
    (psStep (psRun ([PSEvent.drop ["b.jpg"], PSEvent.clickUpload,
        PSEvent.response (UploadResult.ok ⟨true, "one"⟩), PSEvent.clickUpload] ++
        [PSEvent.clickReset]))
        (PSEvent.response (UploadResult.ok ⟨true, "two"⟩))).st.error = none ∧
    psStatus (psStep (psRun ([PSEvent.drop ["b.jpg"], PSEvent.clickUpload,
        PSEvent.response (UploadResult.ok ⟨true, "one"⟩), PSEvent.clickUpload] ++
        [PSEvent.clickReset]))
        (PSEvent.response (UploadResult.ok ⟨true, "two"⟩))).st = Status.succeeded :=
  c1_amended_stale_response_applied
    [PSEvent.drop ["b.jpg"], PSEvent.clickUpload,
     PSEvent.response (UploadResult.ok ⟨true, "one"⟩), PSEvent.clickUpload]
    ⟨true, "two"⟩ rfl (by decide)

/-- C2 (code bug): in the analysis session, clicking reset runs a handler
that clears file, previewUrl and analysisResults and then calls the
undefined setter setDeskewResults, so it throws a ReferenceError and the
following setError(null) never executes: after reset the error field still
holds the old error, the state differs from the fresh-mount state, and a
second reset (a no-op, since the button is gone) leaves the error in place. -/
theorem c2_reset_reference_error :
    (iuRun [IUEvent.drop ["photo.jpg"], IUEvent.clickUpload,
        IUEvent.response (UploadResult.ok ⟨true, "ok"⟩), IUEvent.clickUpload,
        IUEvent.response (UploadResult.ok ⟨false, "bad input"⟩),
        IUEvent.clickReset]).exceptions =
      ["ReferenceError: setDeskewResults is not defined"] ∧
    (iuRun [IUEvent.drop ["photo.jpg"], IUEvent.clickUpload,
        IUEvent.response (UploadResult.ok ⟨true, "ok"⟩), IUEvent.clickUpload,
        IUEvent.response (UploadResult.ok ⟨false, "bad input"⟩),
        IUEvent.clickReset]).st.error = some (analysisAppError "bad input") ∧
    (iuRun [IUEvent.drop ["photo.jpg"], IUEvent.clickUpload,
        IUEvent.response (UploadResult.ok ⟨true, "ok"⟩), IUEvent.clickUpload,
        IUEvent.response (UploadResult.ok ⟨false, "bad input"⟩),
        IUEvent.clickReset]).st.file = none ∧
    (iuRun [IUEvent.drop ["photo.jpg"], IUEvent.clickUpload,
        IUEvent.response (UploadResult.ok ⟨true, "ok"⟩), IUEvent.clickUpload,
        IUEvent.response (UploadResult.ok ⟨false, "bad input"⟩),
        IUEvent.clickReset]).st.analysisResults = none ∧
    (iuRun [IUEvent.drop ["photo.jpg"], IUEvent.clickUpload,
        IUEvent.response (UploadResult.ok ⟨true, "ok"⟩), IUEvent.clickUpload,
        IUEvent.response (UploadResult.ok ⟨false, "bad input"⟩),
        IUEvent.clickReset]).st ≠ iuInit.st ∧
    (iuRun ([IUEvent.drop ["photo.jpg"], IUEvent.clickUpload,
        IUEvent.response (UploadResult.ok ⟨true, "ok"⟩), IUEvent.clickUpload,
        IUEvent.response (UploadResult.ok ⟨false, "bad input"⟩),
        IUEvent.clickReset] ++ [IUEvent.clickReset])).st.error =
      some (analysisAppError "bad input") := by
  decide

/-- C3 counterexample: a reachable state whose status is failed while the
result of the earlier success is still stored: the failure response records
the error without clearing analysisResults. -/
theorem c3_failed_keeps_result_counterexample :
    iuStatus (iuRun [IUEvent.drop ["a.jpg"], IUEvent.clickUpload,
        IUEvent.response (UploadResult.ok ⟨true, "ok"⟩), IUEvent.clickUpload,
        IUEvent.response (UploadResult.ok ⟨false, "bad exposure"⟩)]).st =
      Status.failed ∧
    (iuRun [IUEvent.drop ["a.jpg"], IUEvent.clickUpload,
        IUEvent.response (UploadResult.ok ⟨true, "ok"⟩), IUEvent.clickUpload,
        IUEvent.response (UploadResult.ok ⟨false, "bad exposure"⟩)]).st.analysisResults =
      some ⟨true, "ok"⟩ ∧
    (iuRun [IUEvent.drop ["a.jpg"], IUEvent.clickUpload,
        IUEvent.response (UploadResult.ok ⟨true, "ok"⟩), IUEvent.clickUpload,
        IUEvent.response (UploadResult.ok ⟨false, "bad exposure"⟩)]).st.error =
      some (analysisAppError "bad exposure") := by
  decide

/-- C3 (amended): in every state reached by a trace, status succeeded
implies the result is present and the error absent; status failed implies
the error is present, but the result of an earlier success may remain
stored alongside it. -/
theorem c3_amended_status_invariant (evs : List IUEvent) :
    (iuStatus (iuRun evs).st = Status.succeeded →
        (iuRun evs).st.analysisResults.isSome = true ∧ (iuRun evs).st.error = none) ∧
    (iuStatus (iuRun evs).st = Status.failed → (iuRun evs).st.error.isSome = true) := by
  unfold iuStatus
  split_ifs with h1 h2 h3
  · exact ⟨(fun hst => nomatch hst), (fun hst => nomatch hst)⟩
  · exact ⟨(fun hst => nomatch hst), fun _ => h2⟩
  · exact ⟨fun _ => ⟨h3, Option.not_isSome_iff_eq_none.mp h2⟩, (fun hst => nomatch hst)⟩
  · exact ⟨(fun hst => nomatch hst), (fun hst => nomatch hst)⟩

/-- Witness for C3: the amended theorem applied at a trace ending in a
success response, with the succeeded hypothesis discharged concretely. -/
theorem c3_amended_status_invariant_witness :
    (iuRun [IUEvent.drop ["a.jpg"], IUEvent.clickUpload,
        IUEvent.response (UploadResult.ok ⟨true, "ok"⟩)]).st.analysisResults.isSome = true ∧
    (iuRun [IUEvent.drop ["a.jpg"], IUEvent.clickUpload,
        IUEvent.response (UploadResult.ok ⟨true, "ok"⟩)]).st.error = none :=
  (c3_amended_status_invariant
    [IUEvent.drop ["a.jpg"], IUEvent.clickUpload,
     IUEvent.response (UploadResult.ok ⟨true, "ok"⟩)]).1 (by decide)

/-- C4: a submit issued while the analysis session is uploading is a no-op
(the button is disabled, so the state and the outstanding-request count are
unchanged and no second network call is issued), and along every trace at
most one network call is outstanding. -/
theorem c4_second_submit_noop :
    (∀ w : IUWorld, w.st.isUploading = true → iuStep w IUEvent.clickUpload = w) ∧
    (∀ evs : List IUEvent, (iuRun evs).pending ≤ 1) := by
  constructor
  · intro w h
    simp [iuStep, h]
  · intro evs
    rw [iuRun_pending evs]
    split <;> simp

/-- Witness for C4: the no-op conjunct applied to a concrete mid-flight
world, and the bound applied to a concrete trace. -/
theorem c4_second_submit_noop_witness :
    iuStep ⟨⟨some "a.jpg", some 0, true, none, none⟩, 1, 1, []⟩ IUEvent.clickUpload =
      ⟨⟨some "a.jpg", some 0, true, none, none⟩, 1, 1, []⟩ ∧
    (iuRun [IUEvent.drop ["a.jpg"], IUEvent.clickUpload]).pending ≤ 1 :=
  ⟨c4_second_submit_noop.1 ⟨⟨some "a.jpg", some 0, true, none, none⟩, 1, 1, []⟩ rfl,
   c4_second_submit_noop.2 [IUEvent.drop ["a.jpg"], IUEvent.clickUpload]⟩

/-- C8 counterexample: in the crop tool both failure classes share the
prefix "Crop suggestion failed: ", so an application failure with message
"Server error" and a transport failure whose detail is "Server error"
record identical errors: the two classes are not distinguishable there. -/
theorem c8_crop_error_collision_counterexample :
    cropAppError "Server error" =
      cropTransportError ⟨some "Server error", "Network Error"⟩ ∧
    (cropHandleResponse (UploadResult.ok ⟨false, "Server error"⟩)
        ⟨some "a", some 0, true, none, none⟩).error =
      (cropHandleResponse (UploadResult.err ⟨some "Server error", "Network Error"⟩)
        ⟨some "a", some 0, true, none, none⟩).error := by
  exact ⟨by decide, by decide⟩

/-- C8 (amended): an application failure stores the payload message behind
a tool-specific prefix and a transport failure stores the server detail
when present, else the raw transport description; in the analysis and
similarity tools the two classes use distinct prefixes and so remain
distinguishable, while the crop tool reuses one prefix for both. -/
theorem c8_amended_error_derivation :
    (∀ (s : IUState) (data : RespData), data.success = false →
        (iuHandleResponse (UploadResult.ok data) s).error =
          some (analysisAppError data.message)) ∧
    (∀ (s : IUState) (e : TransErr),
        (iuHandleResponse (UploadResult.err e) s).error =
          some (analysisTransportError e)) ∧
    (∀ (s : PSState) (data : RespData), data.success = false →
        (psHandleResponse (UploadResult.ok data) s).error =
          some (similarityAppError data.message)) ∧
    (∀ (s : PSState) (e : TransErr),
        (psHandleResponse (UploadResult.err e) s).error =
          some (similarityTransportError e)) ∧
    (∀ (s : CropState) (data : RespData), data.success = false →
        (cropHandleResponse (UploadResult.ok data) s).error =
          some (cropAppError data.message)) ∧
    (∀ (s : CropState) (e : TransErr),
        (cropHandleResponse (UploadResult.err e) s).error =
          some (cropTransportError e)) ∧
    (∀ (m : String) (e : TransErr), analysisAppError m ≠ analysisTransportError e) ∧
    (∀ (m : String) (e : TransErr), similarityAppError m ≠ similarityTransportError e) := by
  refine ⟨fun s data h => ?_, fun s e => ?_, fun s data h => ?_, fun s e => ?_,
          fun s data h => ?_, fun s e => ?_,
          fun m e => analysisAppError_ne_transport m e,
          fun m e => similarityAppError_ne_transport m e⟩
  · simp [iuHandleResponse, h]
  · simp [iuHandleResponse]
  · simp [psHandleResponse, h]
  · simp [psHandleResponse]
  · simp [cropHandleResponse, h]
  · simp [cropHandleResponse]

/-- Witness for C8: the derivation conjuncts applied at concrete states and
payloads, with the success=false hypothesis discharged concretely. -/
theorem c8_amended_error_derivation_witness :
    (iuHandleResponse (UploadResult.ok ⟨false, "boom"⟩)
        ⟨some "a", some 0, true, none, none⟩).error = some (analysisAppError "boom") ∧
    analysisAppError "boom" ≠ analysisTransportError ⟨none, "boom"⟩ :=
  ⟨c8_amended_error_derivation.1 ⟨some "a", some 0, true, none, none⟩ ⟨false, "boom"⟩ rfl,
   c8_amended_error_derivation.2.2.2.2.2.2.1 "boom" ⟨none, "boom"⟩⟩
